import Mathlib

/-!
Verification of the MRP Label PDF Merger (`src/app.py`).

The program reads an "Item Summary" worksheet, validates and renames its
columns, drops fully empty rows, derives a per-row display name, and then
merges per-identifier PDF files into one output document, accumulating a
result (processed count, total pages, missing identifiers, per-row errors,
manifest) and a progress fraction.

Spreadsheet cells are modelled by `Cell`: a pandas cell is either missing
(`na`, a float NaN), a number (`num`, floats modelled as rationals), or a
text value (`str`).  The label store is modelled as a predicate
`Int → Bool` giving, for each identifier, whether `{id}.pdf` exists.
Fallible Python expressions (int coercion, comparison on strings) are
modelled with `Except String`, carrying the Python exception message.
-/

namespace MRPLabel

/-- A spreadsheet cell as produced by `pd.read_excel`: missing (NaN),
numeric (float, modelled as a rational), or text. -/
inductive Cell : Type where
  | na : Cell
  | num : ℚ → Cell
  | str : String → Cell
deriving DecidableEq, Repr

/-- `pd.isna` on a scalar cell. -/
def Cell.isna : Cell → Bool
  | Cell.na => true
  | _ => false

/-- `pd.notna` on a scalar cell. -/
def Cell.notna (c : Cell) : Bool := !c.isna

/-- Python `x != 0` on a cell value: a float NaN compares unequal to `0`,
a number compares numerically, a string is never equal to an int. -/
def pyNeZero : Cell → Bool
  | Cell.na => true
  | Cell.num q => decide (q ≠ 0)
  | Cell.str _ => true

/-- Message of Python `int(float('nan'))`. -/
def nanIntError : String := "cannot convert float NaN to integer"

/-- Message of Python `'x' <= 0` (a `TypeError`). -/
def strIntLeError : String :=
  "\x27<=\x27 not supported between instances of \x27str\x27 and \x27int\x27"

/-- Message of Python `int(s)` on a non-numeric string. -/
def invalidIntLiteral (s : String) : String :=
  "invalid literal for int() with base 10: \x27" ++ s ++ "\x27"

/-- Truncation of a rational toward zero, the behaviour of Python `int()`
on a float. -/
def truncRat (q : ℚ) : Int := if 0 ≤ q then ⌊q⌋ else -⌊-q⌋

/-- Python `quantity <= 0` on a cell: defined for NaN (false) and numbers,
a `TypeError` for text. -/
def pyLeZero : Cell → Except String Bool
  | Cell.na => Except.ok false
  | Cell.num q => Except.ok (decide (q ≤ 0))
  | Cell.str _ => Except.error strIntLeError

/-- Python `int(x)` on a cell: NaN raises, a float truncates toward zero,
a string is parsed as a decimal integer or raises. -/
def pyInt : Cell → Except String Int
  | Cell.na => Except.error nanIntError
  | Cell.num q => Except.ok (truncRat q)
  | Cell.str s =>
    match s.toInt? with
    | some n => Except.ok n
    | none => Except.error (invalidIntLiteral s)

/-- Python `str(x)` / f-string rendering of a cell.  NaN renders as
`"nan"`; an integral float renders with a trailing `.0` as in Python
(non-integral floats do not occur as name cells in the sheets considered
and render via the rational printer). -/
def pyStrCell : Cell → String
  | Cell.na => "nan"
  | Cell.num q => if q.den = 1 then toString q.num ++ ".0" else toString q
  | Cell.str s => s

/-- Python `s.lower()` (ASCII). -/
def pyToLower (s : String) : String := String.mk (s.data.map Char.toLower)

/-- Python `s.strip()` (ASCII whitespace). -/
def pyStrip (s : String) : String :=
  String.mk (((s.data.dropWhile Char.isWhitespace).reverse.dropWhile Char.isWhitespace).reverse)

/-- Whether the first list is an initial segment of the second. -/
def leadsWith : List Char → List Char → Bool
  | [], _ => true
  | _ :: _, [] => false
  | a :: as, b :: bs => a == b && leadsWith as bs

/-- Split a character list at the first occurrence of a (non-empty)
separator: the part before and the part after, if the separator occurs. -/
def splitAtSub (sep : List Char) : List Char → Option (List Char × List Char)
  | [] => none
  | c :: cs =>
    if leadsWith sep (c :: cs) then some ([], (c :: cs).drop sep.length)
    else
      match splitAtSub sep cs with
      | some pq => some (c :: pq.1, pq.2)
      | none => none

/-- Python substring test `pat in s` (for non-empty `pat`). -/
def hasSubstr (s pat : String) : Bool := (splitAtSub pat.data s.data).isSome

/-- Python `s.split(sep, 1)`: split at the first occurrence only. -/
def splitOnFirst (s sep : String) : List String :=
  match splitAtSub sep.data s.data with
  | none => [s]
  | some pq => [String.mk pq.1, String.mk pq.2]

/-- Python `", ".join(...)`. -/
def joinComma : List String → String
  | [] => ""
  | [x] => x
  | x :: xs => x ++ ", " ++ joinComma xs

instance {ε α : Type} [DecidableEq ε] [DecidableEq α] : DecidableEq (Except ε α) :=
  fun a b =>
    match a, b with
    | Except.ok x, Except.ok y =>
      if h : x = y then Decidable.isTrue (by rw [h])
      else Decidable.isFalse (by intro hh; cases hh; exact h rfl)
    | Except.error x, Except.error y =>
      if h : x = y then Decidable.isTrue (by rw [h])
      else Decidable.isFalse (by intro hh; cases hh; exact h rfl)
    | Except.ok _, Except.error _ => Decidable.isFalse (by intro hh; cases hh)
    | Except.error _, Except.ok _ => Decidable.isFalse (by intro hh; cases hh)

/-! ## Spreadsheet loader (`load_excel_data`, `create_display_name`) -/

/-- The designated "Item Summary" worksheet: a header row and data rows of
cells, each data row aligned with the header row. -/
structure Sheet : Type where
  headers : List String
  rows : List (List Cell)
deriving DecidableEq, Repr

/-- Insert into a Python dict modelled as an association list: replace the
value of an existing key in place, otherwise append (insertion order is
preserved, as for Python dicts). -/
def dictInsert : List (String × String) → String × String → List (String × String)
  | [], kv => [kv]
  | p :: d, kv => if p.1 = kv.1 then kv :: d else p :: dictInsert d kv

/-- Dict lookup. -/
def dictGet? (d : List (String × String)) (k : String) : Option String :=
  (d.find? (fun p => p.1 == k)).map (fun p => p.2)

/-- `column_mapping = {col.lower().strip(): col for col in df.columns}`. -/
def columnMapping (headers : List String) : List (String × String) :=
  headers.foldl (fun d col => dictInsert d (pyStrip (pyToLower col), col)) []

/-- The required columns, lowercase, in source order. -/
def requiredColumnsLower : List String := ["item id", "variation id", "quantity"]

/-- The required columns, display names, in source order. -/
def requiredColumnsDisplay : List String := ["Item ID", "Variation ID", "Quantity"]

/-- The required display-name columns that have no case-insensitive,
whitespace-insensitive match in the header row (all of them, in order). -/
def missingColumns (headers : List String) : List String :=
  (requiredColumnsLower.zip requiredColumnsDisplay).filterMap
    (fun p => if (dictGet? (columnMapping headers) p.1).isSome then none else some p.2)

/-- The error message returned when required columns are missing. -/
def missingMsg (cols : List String) : String :=
  "Missing required columns: " ++ joinComma cols

/-- The original header matched (case/whitespace-insensitively) by a
required lowercase name. -/
def matchedCol (headers : List String) (lo : String) : String :=
  (dictGet? (columnMapping headers) lo).getD ""

/-- Original header of the `Item ID` column. -/
def itemColOf (headers : List String) : String := matchedCol headers "item id"

/-- Original header of the `Variation ID` column. -/
def varColOf (headers : List String) : String := matchedCol headers "variation id"

/-- Original header of the `Quantity` column. -/
def qtyColOf (headers : List String) : String := matchedCol headers "quantity"

/-- The first header (in dict order, i.e. header order) whose lowered,
stripped name contains `"item name"`, if any: the optional name column. -/
def itemNameKey? (headers : List String) : Option String :=
  ((columnMapping headers).find? (fun p => hasSubstr p.1 "item name")).map (fun p => p.2)

/-- Cell of a named column in a data row (NaN when the row is short, as
pandas pads missing trailing cells with NaN). -/
def getCell (headers : List String) (r : List Cell) (col : String) : Cell :=
  match headers.findIdx? (fun h => h == col) with
  | some i => (r.get? i).getD Cell.na
  | none => Cell.na

/-- `df.dropna(subset=["Item ID", "Variation ID", "quantity"], how='all')`:
true when all three required cells of the row are missing. -/
def allThreeEmpty (headers : List String) (r : List Cell) : Bool :=
  (getCell headers r (itemColOf headers)).isna &&
  (getCell headers r (varColOf headers)).isna &&
  (getCell headers r (qtyColOf headers)).isna

/-- The retained data rows with their original 0-based positions (pandas
keeps the original index labels through `dropna`). -/
def retainedRows (s : Sheet) : List (Nat × List Cell) :=
  s.rows.enum.filter (fun p => !allThreeEmpty s.headers p.2)

/-- `create_display_name` (src/app.py:80-105), for a row of the loaded
frame.  `item_name?` is `none` when the row has no `"Item Name"` key (the
loader always passes `some` since it only calls this when the column
exists); the defaults of `row.get` are evaluated eagerly as in Python, so
`int(item_id)` runs before the name is formatted. -/
def create_display_name (item_id variation_id : Cell) (item_name? : Option Cell) :
    Except String String :=
  if variation_id.notna && pyNeZero variation_id then
    let item_name := item_name?.getD (Cell.str "")
    if item_name.notna && hasSubstr (pyStrCell item_name) " - " then
      let parts := splitOnFirst (pyStrCell item_name) " - "
      let parent_name := pyStrip (parts.getD 0 "")
      let variation_name := if parts.length > 1 then pyStrip (parts.getD 1 "") else ""
      match pyInt item_id with
      | Except.error e => Except.error e
      | Except.ok i =>
        match pyInt variation_id with
        | Except.error e => Except.error e
        | Except.ok v =>
          Except.ok (parent_name ++ " + " ++ variation_name ++
            " (" ++ toString i ++ " + " ++ toString v ++ ")")
    else
      match pyInt item_id with
      | Except.error e => Except.error e
      | Except.ok i =>
        match pyInt variation_id with
        | Except.error e => Except.error e
        | Except.ok v =>
          Except.ok (pyStrCell item_name ++ " (" ++ toString i ++ " + " ++ toString v ++ ")")
  else
    match pyInt item_id with
    | Except.error e => Except.error e
    | Except.ok i =>
      let nm := match item_name? with
        | some c => pyStrCell c
        | none => "Item " ++ toString i
      Except.ok (nm ++ " (" ++ toString i ++ ")")

/-- The `Display Name` lambda used when no item-name column exists
(src/app.py:76): `f"ID: {int(var) if notna(var) and var != 0 else int(item)}"`. -/
def noNameDisplay (item_id variation_id : Cell) : Except String String :=
  if variation_id.notna && pyNeZero variation_id then
    match pyInt variation_id with
    | Except.error e => Except.error e
    | Except.ok v => Except.ok ("ID: " ++ toString v)
  else
    match pyInt item_id with
    | Except.error e => Except.error e
    | Except.ok i => Except.ok ("ID: " ++ toString i)

/-- One row of the loaded frame: original 0-based sheet position (the
pandas index label), the three required cells, and the derived display
name. -/
structure LineItem : Type where
  idx : Nat
  itemId : Cell
  variationId : Cell
  quantity : Cell
  displayName : String
deriving DecidableEq, Repr

/-- Row-by-row effectful map, first error wins (the evaluation order of
`df.apply(..., axis=1)`, which raises at the first failing row). -/
def mapExcept (f : α → Except String β) : List α → Except String (List β)
  | [] => Except.ok []
  | a :: l =>
    match f a with
    | Except.error e => Except.error e
    | Except.ok b =>
      match mapExcept f l with
      | Except.error e => Except.error e
      | Except.ok bs => Except.ok (b :: bs)

/-- The `Display Name` derivation for one data row (src/app.py:73-76):
through `create_display_name` when an item-name column exists, through the
`"ID: ..."` lambda otherwise. -/
def displayNameOf (s : Sheet) (r : List Cell) : Except String String :=
  match itemNameKey? s.headers with
  | some nameCol => create_display_name (getCell s.headers r (itemColOf s.headers))
      (getCell s.headers r (varColOf s.headers)) (some (getCell s.headers r nameCol))
  | none => noNameDisplay (getCell s.headers r (itemColOf s.headers))
      (getCell s.headers r (varColOf s.headers))

/-- Build one `LineItem` from a retained row (position, cells). -/
def loadRow (s : Sheet) (p : Nat × List Cell) : Except String LineItem :=
  match displayNameOf s p.2 with
  | Except.error e => Except.error e
  | Except.ok dn =>
    Except.ok { idx := p.1,
                itemId := getCell s.headers p.2 (itemColOf s.headers),
                variationId := getCell s.headers p.2 (varColOf s.headers),
                quantity := getCell s.headers p.2 (qtyColOf s.headers),
                displayName := dn }

/-- `load_excel_data` (src/app.py:22-78), from the located "Item Summary"
sheet on: validate required columns (collecting every missing one), drop
fully empty rows, derive display names. -/
def load_excel_data (s : Sheet) : Except String (List LineItem) :=
  if missingColumns s.headers = [] then mapExcept (loadRow s) (retainedRows s)
  else Except.error (missingMsg (missingColumns s.headers))

/-! ## PDF assembler (the process loop, src/app.py:190-251) -/

/-- One manifest entry of `processed_details`. -/
structure ProcessedDetail : Type where
  displayName : String
  idUsed : Int
  quantity : Int
deriving DecidableEq, Repr

/-- The accumulated state of one assembly run: the merged document
(modelled as the sequence of identifiers whose file was appended, one
entry per `merger.append`), and the counters and lists of the result. -/
structure AssemblyResult : Type where
  merged : List Int := []
  total_pages : Nat := 0
  processed_items : Nat := 0
  missing_pdfs : List Int := []
  errors : List String := []
  processed_details : List ProcessedDetail := []
deriving DecidableEq, Repr

/-- The identifier used for the label-file lookup (src/app.py:219-223):
the variation identifier when present and non-zero, the item identifier
otherwise, coerced by `int()`. -/
def useId (r : LineItem) : Except String Int :=
  if r.variationId.notna && pyNeZero r.variationId then pyInt r.variationId
  else pyInt r.itemId

/-- The error-message prefix of the per-row `except` branch
(src/app.py:246): `f"Row {idx + 2}: {str(e)}"`. -/
def rowErrorMsg (idx : Nat) (m : String) : String :=
  "Row " ++ toString (idx + 2) ++ ": " ++ m

/-- The `try` body of the per-row loop (src/app.py:206-243): skip on NaN
or non-positive quantity, truncate the quantity, resolve the identifier,
check the label store, and either record the identifier as missing or
append the file `quantity` times and update the counters and manifest.
Every raising step is surfaced as `Except.error` with the Python
message. -/
def tryProcessRow (store : Int → Bool) (st : AssemblyResult) (r : LineItem) :
    Except String AssemblyResult :=
  if r.quantity.isna then Except.ok st
  else
    match pyLeZero r.quantity with
    | Except.error e => Except.error e
    | Except.ok le =>
      if le then Except.ok st
      else
        match pyInt r.quantity with
        | Except.error e => Except.error e
        | Except.ok q =>
          match useId r with
          | Except.error e => Except.error e
          | Except.ok i =>
            if !store i then
              Except.ok { st with missing_pdfs := st.missing_pdfs ++ [i] }
            else
              Except.ok { st with
                merged := st.merged ++ List.replicate q.toNat i,
                total_pages := st.total_pages + q.toNat,
                processed_items := st.processed_items + 1,
                processed_details := st.processed_details ++
                  [{ displayName := r.displayName, idUsed := i, quantity := q }] }

/-- One iteration of the loop: the `try` body, with the `except` branch
appending `f"Row {idx + 2}: {str(e)}"` to `errors` and continuing. -/
def processRow (store : Int → Bool) (st : AssemblyResult) (r : LineItem) : AssemblyResult :=
  match tryProcessRow store st r with
  | Except.ok st' => st'
  | Except.error e => { st with errors := st.errors ++ [rowErrorMsg r.idx e] }

/-- The whole run over the loaded rows, from the empty result. -/
def runAssembly (store : Int → Bool) (rows : List LineItem) : AssemblyResult :=
  rows.foldl (processRow store) {}

/-- The progress fractions reported during the run (src/app.py:248-251):
for each row, `(idx + 1) / len(df)` where `idx` is the row's pandas index
label (its original sheet position) and `len(df)` the number of retained
rows. -/
def progressValues (rows : List LineItem) : List ℚ :=
  rows.map (fun r => ((r.idx : ℚ) + 1) / (rows.length : ℚ))

/-! ## Per-row outcome characterization -/

/-- What one loop iteration does to the result, as a function of the row
and the label store alone. -/
inductive RowOutcome : Type where
  | skipped : RowOutcome
  | failed : String → RowOutcome
  | missingFile : Int → RowOutcome
  | processed : Int → Int → RowOutcome
deriving DecidableEq, Repr

/-- The outcome of one row: skipped on NaN/non-positive quantity, failed
with the Python message on a raising step, otherwise missing-file or
processed (with the truncated quantity), according to the store. -/
def rowOutcome (store : Int → Bool) (r : LineItem) : RowOutcome :=
  match r.quantity with
  | Cell.na => RowOutcome.skipped
  | Cell.str _ => RowOutcome.failed strIntLeError
  | Cell.num q =>
    if q ≤ 0 then RowOutcome.skipped
    else
      match useId r with
      | Except.error e => RowOutcome.failed e
      | Except.ok i =>
        if store i then RowOutcome.processed i (truncRat q) else RowOutcome.missingFile i

/-- Apply a row outcome to the accumulated result. -/
def applyOutcome (st : AssemblyResult) (r : LineItem) : RowOutcome → AssemblyResult
  | RowOutcome.skipped => st
  | RowOutcome.failed m => { st with errors := st.errors ++ [rowErrorMsg r.idx m] }
  | RowOutcome.missingFile i => { st with missing_pdfs := st.missing_pdfs ++ [i] }
  | RowOutcome.processed i q => { st with
      merged := st.merged ++ List.replicate q.toNat i,
      total_pages := st.total_pages + q.toNat,
      processed_items := st.processed_items + 1,
      processed_details := st.processed_details ++
        [{ displayName := r.displayName, idUsed := i, quantity := q }] }

theorem processRow_eq (store : Int → Bool) (st : AssemblyResult) (r : LineItem) :
    processRow store st r = applyOutcome st r (rowOutcome store r) := by
  cases hq : r.quantity with
  | na =>
    simp [processRow, tryProcessRow, rowOutcome, hq, Cell.isna, applyOutcome]
  | str s =>
    simp [processRow, tryProcessRow, rowOutcome, hq, Cell.isna, pyLeZero, applyOutcome]
  | num q =>
    by_cases hle : q ≤ 0
    · simp [processRow, tryProcessRow, rowOutcome, hq, Cell.isna, pyLeZero, hle, applyOutcome]
    · cases hid : useId r with
      | error e =>
        simp [processRow, tryProcessRow, rowOutcome, hq, Cell.isna, pyLeZero, hle, pyInt,
          hid, applyOutcome]
      | ok i =>
        by_cases hst : store i <;>
          simp [processRow, tryProcessRow, rowOutcome, hq, Cell.isna, pyLeZero, hle, pyInt,
            hid, hst, applyOutcome]

/-- Identifiers appended to the document by one row. -/
def mergedEntry (store : Int → Bool) (r : LineItem) : List Int :=
  match rowOutcome store r with
  | RowOutcome.processed i q => List.replicate q.toNat i
  | _ => []

/-- Pages contributed by one row. -/
def pageCount (store : Int → Bool) (r : LineItem) : Nat :=
  match rowOutcome store r with
  | RowOutcome.processed _ q => q.toNat
  | _ => 0

/-- Whether one row is counted as processed. -/
def isProcessedRow (store : Int → Bool) (r : LineItem) : Bool :=
  match rowOutcome store r with
  | RowOutcome.processed _ _ => true
  | _ => false

/-- The missing-identifier entry contributed by one row, if any. -/
def missingEntry (store : Int → Bool) (r : LineItem) : Option Int :=
  match rowOutcome store r with
  | RowOutcome.missingFile i => some i
  | _ => none

/-- The error entry contributed by one row, if any. -/
def errorEntry (store : Int → Bool) (r : LineItem) : Option String :=
  match rowOutcome store r with
  | RowOutcome.failed m => some (rowErrorMsg r.idx m)
  | _ => none

/-- The manifest entry contributed by one row, if any. -/
def detailEntry (store : Int → Bool) (r : LineItem) : Option ProcessedDetail :=
  match rowOutcome store r with
  | RowOutcome.processed i q => some { displayName := r.displayName, idUsed := i, quantity := q }
  | _ => none

/-- Every component of the final state of the loop, characterized row by
row. -/
theorem foldl_processRow (store : Int → Bool) (rows : List LineItem) (st : AssemblyResult) :
    rows.foldl (processRow store) st = AssemblyResult.mk
      (st.merged ++ (rows.map (mergedEntry store)).flatten)
      (st.total_pages + (rows.map (pageCount store)).sum)
      (st.processed_items + rows.countP (isProcessedRow store))
      (st.missing_pdfs ++ rows.filterMap (missingEntry store))
      (st.errors ++ rows.filterMap (errorEntry store))
      (st.processed_details ++ rows.filterMap (detailEntry store)) := by
  induction rows generalizing st with
  | nil => simp
  | cons r rs ih =>
    rw [List.foldl_cons, processRow_eq, ih]
    cases ho : rowOutcome store r <;>
      simp [applyOutcome, mergedEntry, pageCount, isProcessedRow, missingEntry, errorEntry,
        detailEntry, ho, List.countP_cons, List.append_assoc, Nat.add_assoc, Nat.add_comm,
        Nat.add_left_comm]

theorem runAssembly_eq (store : Int → Bool) (rows : List LineItem) :
    runAssembly store rows = AssemblyResult.mk
      ((rows.map (mergedEntry store)).flatten)
      ((rows.map (pageCount store)).sum)
      (rows.countP (isProcessedRow store))
      (rows.filterMap (missingEntry store))
      (rows.filterMap (errorEntry store))
      (rows.filterMap (detailEntry store)) := by
  simpa using foldl_processRow store rows {}

/-! ## Helper lemmas -/

theorem truncRat_intCast (n : Int) : truncRat (n : ℚ) = n := by
  unfold truncRat
  by_cases h : (0 : ℚ) ≤ (n : ℚ)
  · simp [h]
  · simp only [h, if_false]
    rw [← Int.cast_neg, Int.floor_intCast]
    omega

theorem pyInt_intCast (n : Int) : pyInt (Cell.num (n : ℚ)) = Except.ok n := by
  simp [pyInt, truncRat_intCast]

theorem dictGet?_dictInsert (d : List (String × String)) (k v k' : String) :
    dictGet? (dictInsert d (k, v)) k' = if k' = k then some v else dictGet? d k' := by
  induction d with
  | nil =>
    by_cases h : k' = k
    · simp [dictInsert, dictGet?, List.find?, h]
    · have hb : (k == k') = false := by
        simp only [beq_eq_false_iff_ne, ne_eq]
        exact fun hh => h hh.symm
      simp [dictInsert, dictGet?, List.find?, hb, h]
  | cons p d ih =>
    by_cases hp : p.1 = k
    · by_cases h : k' = k
      · subst h
        simp [dictInsert, hp, dictGet?, List.find?_cons, beq_iff_eq]
      · have hb : (k == k') = false := by
          simp only [beq_eq_false_iff_ne, ne_eq]
          exact fun hh => h hh.symm
        have hb2 : (p.1 == k') = false := by
          simp only [beq_eq_false_iff_ne, ne_eq, hp]
          exact fun hh => h hh.symm
        simp [dictInsert, hp, dictGet?, List.find?_cons, hb, hb2, h]
    · simp only [dictInsert, hp, if_false]
      by_cases h : k' = p.1
      · subst h
        simp [dictGet?, List.find?_cons, hp]
      · have hb : (p.1 == k') = false := by
          simp only [beq_eq_false_iff_ne, ne_eq]
          exact fun hh => h hh.symm
        simp only [dictGet?, List.find?_cons, hb, cond_false] at ih ⊢
        simpa [dictGet?] using ih

/-- A key is found in `columnMapping hs` exactly when some header lowers
and strips to it. -/
theorem columnMapping_isSome (hs : List String) (k : String) :
    (dictGet? (columnMapping hs) k).isSome = hs.any (fun h => pyStrip (pyToLower h) == k) := by
  suffices H : ∀ d : List (String × String),
      (dictGet? (hs.foldl (fun d col => dictInsert d (pyStrip (pyToLower col), col)) d) k).isSome
        = ((dictGet? d k).isSome || hs.any (fun h => pyStrip (pyToLower h) == k)) by
    simpa [columnMapping, dictGet?] using H []
  induction hs with
  | nil => simp
  | cons h hs ih =>
    intro d
    simp only [List.foldl_cons, List.any_cons]
    rw [ih]
    by_cases hk : k = pyStrip (pyToLower h)
    · simp [dictGet?_dictInsert, hk, beq_iff_eq]
    · have : (pyStrip (pyToLower h) == k) = false := by
        simp [beq_iff_eq]; exact fun hh => hk hh.symm
      simp [dictGet?_dictInsert, hk, this]

theorem mapExcept_ok_map {f : α → Except String β} {g : α → γ} {h : β → γ}
    (hfg : ∀ a b, f a = Except.ok b → h b = g a) :
    ∀ {l : List α} {out : List β}, mapExcept f l = Except.ok out → out.map h = l.map g := by
  intro l
  induction l with
  | nil => intro out hout; cases hout; simp
  | cons a l ih =>
    intro out hout
    cases hfa : f a with
    | error e => simp [mapExcept, hfa] at hout
    | ok b =>
      cases hrest : mapExcept f l with
      | error e => simp [mapExcept, hfa, hrest] at hout
      | ok bs =>
        simp only [mapExcept, hfa, hrest] at hout
        cases hout
        simp [ih hrest, hfg a b hfa]

theorem mapExcept_error_of_mem {f : α → Except String β} {l : List α} {a : α} {e : String}
    (ha : a ∈ l) (hf : f a = Except.error e) :
    ∃ e', mapExcept f l = Except.error e' := by
  induction l with
  | nil => cases ha
  | cons b l ih =>
    cases hfb : f b with
    | error eb => exact ⟨eb, by simp [mapExcept, hfb]⟩
    | ok vb =>
      rcases List.mem_cons.mp ha with hab | ha'
      · subst hab; rw [hf] at hfb; cases hfb
      · rcases ih ha' with ⟨e', he'⟩
        exact ⟨e', by simp [mapExcept, hfb, he']⟩

theorem loadRow_idx (s : Sheet) (p : Nat × List Cell) (r : LineItem)
    (h : loadRow s p = Except.ok r) : r.idx = p.1 := by
  unfold loadRow at h
  cases hdn : displayNameOf s p.2 with
  | error e => rw [hdn] at h; cases h
  | ok dn => rw [hdn] at h; cases h; rfl

/-- On success, the loader returns exactly the retained rows, in order,
carrying their original positions. -/
theorem load_idx_eq (s : Sheet) (rows : List LineItem)
    (h : load_excel_data s = Except.ok rows) :
    rows.map (fun r => r.idx) = (retainedRows s).map (fun p => p.1) := by
  unfold load_excel_data at h
  by_cases hm : missingColumns s.headers = []
  · rw [if_pos hm] at h
    exact mapExcept_ok_map (fun p r hr => loadRow_idx s p r hr) h
  · rw [if_neg hm] at h; cases h

theorem pairwise_lt_enumFrom (n : Nat) (l : List α) :
    List.Pairwise (fun p q : Nat × α => p.1 < q.1) (List.enumFrom n l) := by
  induction l generalizing n with
  | nil => simp
  | cons a l ih =>
    refine List.pairwise_cons.mpr ⟨?_, ih (n + 1)⟩
    intro p hp
    have : n + 1 ≤ p.1 := by
      clear ih
      induction l generalizing n with
      | nil => cases hp
      | cons b l ih2 =>
        rcases List.mem_cons.mp hp with h | h
        · subst h; omega
        · have := ih2 (n := n + 1) h
          omega
    omega

theorem pairwise_lt_retained_idx (s : Sheet) :
    List.Pairwise (· < ·) ((retainedRows s).map (fun p => p.1)) := by
  refine List.Pairwise.map _ (fun p q h => h) ?_
  exact (pairwise_lt_enumFrom 0 s.rows).sublist (List.filter_sublist _)

/-! ## Claim C1: effective identifier resolution -/

/-- C1: for every row, the effective identifier used for the label-file
lookup (`useId`, src/app.py:219-226) equals the variation identifier when
the variation identifier is present (not NaN) and non-zero, and equals the
item identifier when the variation identifier is absent (NaN) or zero. -/
theorem effective_identifier_resolution (r : LineItem) (m n : Int) :
    (r.variationId = Cell.num (n : ℚ) → n ≠ 0 → useId r = Except.ok n) ∧
    ((r.variationId = Cell.na ∨ r.variationId = Cell.num 0) →
      r.itemId = Cell.num (m : ℚ) → useId r = Except.ok m) := by
  constructor
  · intro hv hn
    have hnq : ((n : ℚ) ≠ 0) := by exact_mod_cast hn
    simp [useId, hv, Cell.notna, Cell.isna, pyNeZero, hnq, pyInt_intCast]
  · rintro (hv | hv) hm <;>
      simp [useId, hv, Cell.notna, Cell.isna, pyNeZero, hm, pyInt_intCast]

theorem effective_identifier_resolution_witness :
    useId { idx := 0, itemId := Cell.num 7413, variationId := Cell.num 12628,
            quantity := Cell.num 1, displayName := "w" } = Except.ok 12628 ∧
    useId { idx := 0, itemId := Cell.num 7413, variationId := Cell.num 0,
            quantity := Cell.num 1, displayName := "w" } = Except.ok 7413 ∧
    useId { idx := 0, itemId := Cell.num 7413, variationId := Cell.na,
            quantity := Cell.num 1, displayName := "w" } = Except.ok 7413 := by
  refine ⟨?_, ?_, ?_⟩
  · exact (effective_identifier_resolution _ 7413 12628).1 (by decide) (by decide)
  · exact (effective_identifier_resolution _ 7413 12628).2 (Or.inr rfl) (by decide)
  · exact (effective_identifier_resolution _ 7413 12628).2 (Or.inl rfl) (by decide)

/-! ## Claim C2: quantity-skip semantics (corrected) -/

/-- C2 counterexample: a row whose quantity is the non-numeric string
`"five"` is NOT skipped silently: the comparison `quantity <= 0` raises a
`TypeError`, which the per-row `except` branch records in `errors`
(src/app.py:213, 245-246), contradicting the claim that such a row appears
in neither `missingIdentifiers` nor `errors`. -/
theorem quantity_skip_counterexample :
    (runAssembly (fun _ => true)
      [{ idx := 0, itemId := Cell.num 1, variationId := Cell.num 0,
         quantity := Cell.str "five", displayName := "X" }]).errors
      = [rowErrorMsg 0 strIntLeError] ∧
    (runAssembly (fun _ => true)
      [{ idx := 0, itemId := Cell.num 1, variationId := Cell.num 0,
         quantity := Cell.str "five", displayName := "X" }]).errors ≠ [] := by
  constructor <;> decide

/-- C2 (amended): a row whose quantity is missing (NaN) or a non-positive
number is skipped silently — it leaves the whole result unchanged, so it
contributes zero pages, appears in neither `missingIdentifiers` nor
`errors`, and is not counted as processed; a row whose quantity is
non-numeric text instead raises in the comparison and is recorded as a row
error. -/
theorem quantity_skip_semantics (store : Int → Bool) (st : AssemblyResult) (r : LineItem)
    (pre suf : List LineItem) :
    ((r.quantity = Cell.na ∨ ∃ q : ℚ, r.quantity = Cell.num q ∧ q ≤ 0) →
      processRow store st r = st ∧
      runAssembly store (pre ++ r :: suf) = runAssembly store (pre ++ suf)) ∧
    (∀ z : String, r.quantity = Cell.str z →
      processRow store st r
        = { st with errors := st.errors ++ [rowErrorMsg r.idx strIntLeError] }) := by
  constructor
  · intro hq
    have hskip : ∀ st' : AssemblyResult, processRow store st' r = st' := by
      intro st'
      rw [processRow_eq]
      rcases hq with hna | ⟨q, hq, hle⟩
      · simp [rowOutcome, hna, applyOutcome]
      · simp [rowOutcome, hq, hle, applyOutcome]
    refine ⟨hskip st, ?_⟩
    unfold runAssembly
    rw [List.foldl_append, List.foldl_append, List.foldl_cons, hskip]
  · intro z hz
    rw [processRow_eq]
    simp [rowOutcome, hz, applyOutcome]

theorem quantity_skip_semantics_witness :
    processRow (fun _ => true) {}
      { idx := 0, itemId := Cell.num 1, variationId := Cell.num 0,
        quantity := Cell.na, displayName := "X" } = {} ∧
    processRow (fun _ => true) {}
      { idx := 3, itemId := Cell.num 1, variationId := Cell.num 0,
        quantity := Cell.num (-2), displayName := "X" } = {} ∧
    processRow (fun _ => true) {}
      { idx := 3, itemId := Cell.num 1, variationId := Cell.num 0,
        quantity := Cell.str "n/a", displayName := "X" }
      = { errors := [rowErrorMsg 3 strIntLeError] } := by
  refine ⟨?_, ?_, ?_⟩
  · exact ((quantity_skip_semantics (fun _ => true) {} _ [] []).1 (Or.inl rfl)).1
  · exact ((quantity_skip_semantics (fun _ => true) {} _ [] []).1
      (Or.inr ⟨-2, rfl, by norm_num⟩)).1
  · exact ((quantity_skip_semantics (fun _ => true) {} _ [] []).2 "n/a" rfl).trans (by decide)

/-! ## Claim C3: totals -/

/-- Whether a row is processed: a numeric quantity strictly positive
before truncation, a resolvable identifier, and an existing label file. -/
def rowProcessed (store : Int → Bool) (r : LineItem) : Bool :=
  match r.quantity, useId r with
  | Cell.num q, Except.ok i => decide (0 < q) && store i
  | _, _ => false

/-- The number of repetitions of a processed row: its quantity truncated
toward zero to an integer, only after the positivity check. -/
def truncPages (r : LineItem) : Nat :=
  match r.quantity with
  | Cell.num q => (truncRat q).toNat
  | _ => 0

theorem pageCount_eq (store : Int → Bool) (r : LineItem) :
    pageCount store r = if rowProcessed store r then truncPages r else 0 := by
  unfold pageCount rowOutcome rowProcessed truncPages
  cases hq : r.quantity with
  | na => simp
  | str z => simp
  | num q =>
    cases hid : useId r with
    | error e => by_cases hle : q ≤ 0 <;> simp [hle]
    | ok i =>
      by_cases hle : q ≤ 0
      · simp [hle, not_lt_of_le hle]
      · by_cases hst : store i <;> simp [hle, hst, lt_of_not_le hle]

theorem isProcessedRow_eq (store : Int → Bool) (r : LineItem) :
    isProcessedRow store r = rowProcessed store r := by
  unfold isProcessedRow rowOutcome rowProcessed
  cases hq : r.quantity with
  | na => simp
  | str z => simp
  | num q =>
    cases hid : useId r with
    | error e => by_cases hle : q ≤ 0 <;> simp [hle]
    | ok i =>
      by_cases hle : q ≤ 0
      · simp [hle, not_lt_of_le hle]
      · by_cases hst : store i <;> simp [hle, hst, lt_of_not_le hle]

/-- C3: after a run, `totalPages` is the sum over processed rows of their
quantity truncated toward zero (the truncation happens only after the
positivity check: a row with quantity `1/2` is processed but contributes
`0` pages), and `processedCount` is the number of rows with a valid
positive quantity, a resolvable identifier and an existing label file. -/
theorem totals_characterization (store : Int → Bool) (rows : List LineItem) :
    (runAssembly store rows).total_pages
      = (rows.map (fun r => if rowProcessed store r then truncPages r else 0)).sum ∧
    (runAssembly store rows).processed_items = rows.countP (rowProcessed store) := by
  rw [runAssembly_eq]
  constructor
  · have : (pageCount store) = fun r => if rowProcessed store r then truncPages r else 0 :=
      funext (pageCount_eq store)
    rw [this]
  · have : (isProcessedRow store) = rowProcessed store := funext (isProcessedRow_eq store)
    rw [this]

/-! ## Claim C4: missing identifiers -/

/-- C4: every row whose effective identifier resolves but has no matching
label file contributes exactly one entry, its effective identifier, to
`missingIdentifiers`, in row order and without deduplication; such a row
records no error and processing continues (the state changes only by the
appended identifier). -/
theorem missing_identifier_recording (store : Int → Bool) (rows : List LineItem)
    (st : AssemblyResult) (r : LineItem) (i : Int) :
    (runAssembly store rows).missing_pdfs = rows.filterMap (missingEntry store) ∧
    (missingEntry store r = some i ↔
      (∃ q : ℚ, r.quantity = Cell.num q ∧ 0 < q) ∧
        useId r = Except.ok i ∧ store i = false) ∧
    (missingEntry store r = some i →
      processRow store st r = { st with missing_pdfs := st.missing_pdfs ++ [i] }) := by
  refine ⟨by rw [runAssembly_eq], ?_, ?_⟩
  · unfold missingEntry rowOutcome
    cases hq : r.quantity with
    | na => simp
    | str z => simp
    | num q =>
      by_cases hle : q ≤ 0
      · simp [hle, not_lt_of_le hle]
      · cases hid : useId r with
        | error e => simp [hle]
        | ok j =>
          by_cases hst : store j
          · simp only [hle, if_false, hst, if_true]
            constructor
            · intro h; cases h
            · rintro ⟨⟨q', hq', hq0⟩, hij, hsi⟩
              cases hij
              rw [hst] at hsi; cases hsi
          · simp only [hle, if_false, hst, if_false]
            constructor
            · intro h
              cases h
              exact ⟨⟨q, rfl, lt_of_not_le hle⟩, rfl, by simp [hst]⟩
            · rintro ⟨⟨q', hq', hq0⟩, hij, hsi⟩
              cases hij
              rfl
  · intro hmi
    rw [processRow_eq]
    unfold missingEntry at hmi
    cases ho : rowOutcome store r <;> rw [ho] at hmi
    · cases hmi
    · cases hmi
    · cases hmi
      simp [applyOutcome]
    · cases hmi

theorem missing_identifier_recording_witness :
    (runAssembly (fun _ => false)
      [{ idx := 0, itemId := Cell.num 9999, variationId := Cell.num 0,
         quantity := Cell.num 1, displayName := "A" },
       { idx := 1, itemId := Cell.num 1, variationId := Cell.num 9999,
         quantity := Cell.num 2, displayName := "B" }]).missing_pdfs = [9999, 9999] ∧
    processRow (fun _ => false) {}
      { idx := 0, itemId := Cell.num 9999, variationId := Cell.num 0,
        quantity := Cell.num 1, displayName := "A" } = { missing_pdfs := [9999] } := by
  constructor
  · exact (missing_identifier_recording (fun _ => false) _ {}
      { idx := 0, itemId := Cell.num 9999, variationId := Cell.num 0,
        quantity := Cell.num 1, displayName := "A" } 9999).1.trans (by decide)
  · exact ((missing_identifier_recording (fun _ => false) [] {}
      { idx := 0, itemId := Cell.num 9999, variationId := Cell.num 0,
        quantity := Cell.num 1, displayName := "A" } 9999).2.2 (by decide)).trans (by decide)

/-! ## Claim C5: row errors never abort the run -/

/-- C5: a failure while processing one row never aborts the run: the
error is recorded as `"Row {idx + 2}: {message}"` — `idx + 2` being the
1-based spreadsheet row number of the row, offset by the header row — and
the remaining rows are processed from that state, so a result is always
produced. -/
theorem row_error_isolation (store : Int → Bool) (pre suf : List LineItem)
    (r : LineItem) (m : String) (h : rowOutcome store r = RowOutcome.failed m) :
    runAssembly store (pre ++ r :: suf)
      = suf.foldl (processRow store)
          { runAssembly store pre with
            errors := (runAssembly store pre).errors ++ [rowErrorMsg r.idx m] } := by
  unfold runAssembly
  rw [List.foldl_append, List.foldl_cons, processRow_eq, h]
  rfl

theorem row_error_isolation_witness :
    runAssembly (fun _ => true)
      [{ idx := 0, itemId := Cell.na, variationId := Cell.na,
         quantity := Cell.num 5, displayName := "B" },
       { idx := 1, itemId := Cell.num 7, variationId := Cell.num 0,
         quantity := Cell.num 1, displayName := "G" }]
      = { merged := [7], total_pages := 1, processed_items := 1, missing_pdfs := [],
          errors := [rowErrorMsg 0 nanIntError],
          processed_details := [{ displayName := "G", idUsed := 7, quantity := 1 }] } := by
  exact (row_error_isolation (fun _ => true) []
    [{ idx := 1, itemId := Cell.num 7, variationId := Cell.num 0,
       quantity := Cell.num 1, displayName := "G" }]
    { idx := 0, itemId := Cell.na, variationId := Cell.na,
      quantity := Cell.num 5, displayName := "B" } nanIntError (by decide)).trans (by decide)

/-! ## Claim C6: display-name rule (corrected) -/

theorem hasSubstr_of_splitOnFirst_two {s sep a b : String}
    (h : splitOnFirst s sep = [a, b]) : hasSubstr s sep = true := by
  unfold splitOnFirst at h
  unfold hasSubstr
  cases hs : splitAtSub sep.data s.data with
  | none => rw [hs] at h; cases h
  | some pq => simp

/-- C6 counterexample: for a sheet with no item-name column at all, the
loader derives the display name `"ID: {effectiveId}"` (src/app.py:76), not
the claimed fallback `"Item {itemId}"`: item 5 with no variation loads
with display name `"ID: 5"`, which differs from `"Item 5"`. -/
theorem display_name_fallback_counterexample :
    load_excel_data
      { headers := ["Item ID", "Variation ID", "Quantity"],
        rows := [[Cell.num 5, Cell.num 0, Cell.num 1]] }
      = Except.ok
          [{ idx := 0, itemId := Cell.num 5, variationId := Cell.num 0,
             quantity := Cell.num 1, displayName := "ID: 5" }] ∧
    "ID: 5" ≠ "Item 5" := by
  constructor <;> decide

/-- C6 (amended): for every retained row with a name column, the display
name follows the three-case rule — with a present non-zero variation id
and a name containing `" - "`, `"{parent} + {variation} ({itemId} +
{variationId})"` split at the first separator (parts stripped); with a
present non-zero variation id and no separator, `"{itemName} ({itemId} +
{variationId})"`; with an absent or zero variation id, `"{itemName}
({itemId})"`.  When no name column exists at all, the loader instead
derives `"ID: {variationId}"` for a present non-zero variation id and
`"ID: {itemId}"` otherwise (so the formatter's `"Item {itemId}"` default
is never used by the loader). -/
theorem display_name_rule (i v : Int) (s a b : String) :
    (v ≠ 0 → splitOnFirst s " - " = [a, b] →
      create_display_name (Cell.num (i : ℚ)) (Cell.num (v : ℚ)) (some (Cell.str s))
        = Except.ok (pyStrip a ++ " + " ++ pyStrip b ++
            " (" ++ toString i ++ " + " ++ toString v ++ ")")) ∧
    (v ≠ 0 → hasSubstr s " - " = false →
      create_display_name (Cell.num (i : ℚ)) (Cell.num (v : ℚ)) (some (Cell.str s))
        = Except.ok (s ++ " (" ++ toString i ++ " + " ++ toString v ++ ")")) ∧
    (create_display_name (Cell.num (i : ℚ)) (Cell.num 0) (some (Cell.str s))
      = Except.ok (s ++ " (" ++ toString i ++ ")")) ∧
    (create_display_name (Cell.num (i : ℚ)) Cell.na (some (Cell.str s))
      = Except.ok (s ++ " (" ++ toString i ++ ")")) ∧
    (v ≠ 0 →
      noNameDisplay (Cell.num (i : ℚ)) (Cell.num (v : ℚ))
        = Except.ok ("ID: " ++ toString v)) ∧
    (noNameDisplay (Cell.num (i : ℚ)) (Cell.num 0) = Except.ok ("ID: " ++ toString i)) ∧
    (noNameDisplay (Cell.num (i : ℚ)) Cell.na = Except.ok ("ID: " ++ toString i)) := by
  refine ⟨?_, ?_, ?_, ?_, ?_, ?_, ?_⟩
  · intro hv hsplit
    have hvq : ((v : ℚ) ≠ 0) := by exact_mod_cast hv
    have hsub := hasSubstr_of_splitOnFirst_two hsplit
    simp [create_display_name, Cell.notna, Cell.isna, pyNeZero, pyStrCell, hvq, hsub,
      hsplit, pyInt_intCast]
  · intro hv hsub
    have hvq : ((v : ℚ) ≠ 0) := by exact_mod_cast hv
    simp [create_display_name, Cell.notna, Cell.isna, pyNeZero, pyStrCell, hvq, hsub,
      pyInt_intCast]
  · simp [create_display_name, Cell.notna, Cell.isna, pyNeZero, pyStrCell, pyInt_intCast]
  · simp [create_display_name, Cell.notna, Cell.isna, pyNeZero, pyStrCell, pyInt_intCast]
  · intro hv
    have hvq : ((v : ℚ) ≠ 0) := by exact_mod_cast hv
    simp [noNameDisplay, Cell.notna, Cell.isna, pyNeZero, hvq, pyInt_intCast]
  · simp [noNameDisplay, Cell.notna, Cell.isna, pyNeZero, pyInt_intCast]
  · simp [noNameDisplay, Cell.notna, Cell.isna, pyNeZero, pyInt_intCast]

theorem display_name_rule_witness :
    create_display_name (Cell.num 12625) (Cell.num 12628)
        (some (Cell.str "Red Capsicum - 250g"))
      = Except.ok "Red Capsicum + 250g (12625 + 12628)" ∧
    create_display_name (Cell.num 12625) (Cell.num 12628) (some (Cell.str "Garlic"))
      = Except.ok "Garlic (12625 + 12628)" ∧
    create_display_name (Cell.num 7413) (Cell.num 0) (some (Cell.str "Turmeric"))
      = Except.ok "Turmeric (7413)" ∧
    noNameDisplay (Cell.num 7413) (Cell.num 12628) = Except.ok "ID: 12628" := by
  refine ⟨?_, ?_, ?_, ?_⟩
  · exact ((display_name_rule 12625 12628 "Red Capsicum - 250g" "Red Capsicum" "250g").1
      (by decide) (by decide)).trans (by decide)
  · exact ((display_name_rule 12625 12628 "Garlic" "" "").2.1
      (by decide) (by decide)).trans (by decide)
  · exact ((display_name_rule 7413 0 "Turmeric" "" "").2.2.1).trans (by decide)
  · exact ((display_name_rule 7413 12628 "" "" "").2.2.2.2.1 (by decide)).trans (by decide)

/-! ## Claim C7: missing-columns validation -/

/-- C7: a required display column is reported missing exactly when no
header matches it case- and whitespace-insensitively, every missing one is
reported (the reported list is `missingColumns`, which collects all
three checks in order), and when any is missing the loader fails with the
message naming them and produces no rows. -/
theorem missing_columns_report (s : Sheet) :
    (∀ lo disp, (lo, disp) ∈ requiredColumnsLower.zip requiredColumnsDisplay →
      (disp ∈ missingColumns s.headers ↔ ¬ ∃ h ∈ s.headers, pyStrip (pyToLower h) = lo)) ∧
    (missingColumns s.headers ≠ [] →
      load_excel_data s = Except.error (missingMsg (missingColumns s.headers))) := by
  constructor
  · intro lo disp hmem
    have hiff : ∀ k : String, (dictGet? (columnMapping s.headers) k).isSome = true ↔
        ∃ h ∈ s.headers, pyStrip (pyToLower h) = k := by
      intro k
      rw [columnMapping_isSome]
      simp [List.any_eq_true, beq_iff_eq]
    simp only [requiredColumnsLower, requiredColumnsDisplay, List.zip] at hmem
    by_cases c1 : (dictGet? (columnMapping s.headers) "item id").isSome
    · by_cases c2 : (dictGet? (columnMapping s.headers) "variation id").isSome
      · by_cases c3 : (dictGet? (columnMapping s.headers) "quantity").isSome
        all_goals (
          fin_cases hmem <;>
            simp_all [missingColumns, requiredColumnsLower, requiredColumnsDisplay,
              List.filterMap_cons, hiff])
      · by_cases c3 : (dictGet? (columnMapping s.headers) "quantity").isSome
        all_goals (
          fin_cases hmem <;>
            simp_all [missingColumns, requiredColumnsLower, requiredColumnsDisplay,
              List.filterMap_cons, hiff])
    · by_cases c2 : (dictGet? (columnMapping s.headers) "variation id").isSome
      · by_cases c3 : (dictGet? (columnMapping s.headers) "quantity").isSome
        all_goals (
          fin_cases hmem <;>
            simp_all [missingColumns, requiredColumnsLower, requiredColumnsDisplay,
              List.filterMap_cons, hiff])
      · by_cases c3 : (dictGet? (columnMapping s.headers) "quantity").isSome
        all_goals (
          fin_cases hmem <;>
            simp_all [missingColumns, requiredColumnsLower, requiredColumnsDisplay,
              List.filterMap_cons, hiff])
  · intro h
    unfold load_excel_data
    rw [if_neg h]

theorem missing_columns_report_witness :
    "Quantity" ∈ missingColumns ["Item ID", "Variation ID", "Item Name"] ∧
    missingColumns ["Item ID", "Variation ID", "Item Name"] = ["Quantity"] ∧
    load_excel_data { headers := ["Item ID", "Variation ID", "Item Name"], rows := [] }
      = Except.error (missingMsg ["Quantity"]) := by
  refine ⟨?_, by decide, ?_⟩
  · exact ((missing_columns_report
      { headers := ["Item ID", "Variation ID", "Item Name"], rows := [] }).1
      "quantity" "Quantity" (by decide)).mpr (by decide)
  · exact ((missing_columns_report
      { headers := ["Item ID", "Variation ID", "Item Name"], rows := [] }).2
      (by decide)).trans (by decide)

/-! ## Claim C8: dropna retention -/

theorem loadRow_fields (s : Sheet) (p : Nat × List Cell) (r : LineItem)
    (h : loadRow s p = Except.ok r) :
    r.idx = p.1 ∧ r.itemId = getCell s.headers p.2 (itemColOf s.headers) ∧
    r.variationId = getCell s.headers p.2 (varColOf s.headers) ∧
    r.quantity = getCell s.headers p.2 (qtyColOf s.headers) := by
  unfold loadRow at h
  cases hdn : displayNameOf s p.2 with
  | error e => rw [hdn] at h; cases h
  | ok dn => rw [hdn] at h; cases h; exact ⟨rfl, rfl, rfl, rfl⟩

/-- C8: on a successful load, the loaded rows are exactly the sheet rows
in which not all three of the required cells are missing — in order, with
their original positions and their cells — so rows where all three are
empty are dropped and rows where only some are empty are retained. -/
theorem dropna_retention (s : Sheet) (rows : List LineItem)
    (h : load_excel_data s = Except.ok rows) :
    rows.map (fun r => (r.idx, r.itemId, r.variationId, r.quantity))
      = (s.rows.enum.filter (fun p => !allThreeEmpty s.headers p.2)).map
          (fun p => (p.1, getCell s.headers p.2 (itemColOf s.headers),
            getCell s.headers p.2 (varColOf s.headers),
            getCell s.headers p.2 (qtyColOf s.headers))) := by
  unfold load_excel_data at h
  by_cases hm : missingColumns s.headers = []
  · rw [if_pos hm] at h
    have := mapExcept_ok_map (f := loadRow s)
      (g := fun p : Nat × List Cell => (p.1, getCell s.headers p.2 (itemColOf s.headers),
        getCell s.headers p.2 (varColOf s.headers),
        getCell s.headers p.2 (qtyColOf s.headers)))
      (h := fun r : LineItem => (r.idx, r.itemId, r.variationId, r.quantity))
      (fun p r hr => by
        rcases loadRow_fields s p r hr with ⟨h1, h2, h3, h4⟩
        dsimp only
        rw [h1, h2, h3, h4]) h
    simpa [retainedRows] using this
  · rw [if_neg hm] at h; cases h

theorem dropna_retention_witness :
    (([{ idx := 1, itemId := Cell.num 1, variationId := Cell.na,
         quantity := Cell.num 2, displayName := "ID: 1" }] : List LineItem).map
      (fun r => (r.idx, r.itemId, r.variationId, r.quantity)))
      = (([[Cell.na, Cell.na, Cell.na], [Cell.num 1, Cell.na, Cell.num 2]] :
            List (List Cell)).enum.filter
          (fun p => !allThreeEmpty ["Item ID", "Variation ID", "Quantity"] p.2)).map
          (fun p => (p.1,
            getCell ["Item ID", "Variation ID", "Quantity"] p.2
              (itemColOf ["Item ID", "Variation ID", "Quantity"]),
            getCell ["Item ID", "Variation ID", "Quantity"] p.2
              (varColOf ["Item ID", "Variation ID", "Quantity"]),
            getCell ["Item ID", "Variation ID", "Quantity"] p.2
              (qtyColOf ["Item ID", "Variation ID", "Quantity"]))) := by
  exact dropna_retention
    { headers := ["Item ID", "Variation ID", "Quantity"],
      rows := [[Cell.na, Cell.na, Cell.na], [Cell.num 1, Cell.na, Cell.num 2]] }
    [{ idx := 1, itemId := Cell.num 1, variationId := Cell.na,
       quantity := Cell.num 2, displayName := "ID: 1" }] (by decide)

/-! ## Claim C9: progress fractions (corrected) -/

/-- C9 counterexample: the progress fraction is `(idx + 1) / totalRows`
with `idx` the pandas index label (the original sheet position, which
survives `dropna`), not the number of rows seen.  For a sheet whose middle
row is dropped, the two retained rows report progress `1/2` and then
`3/2`, which exceeds `1` (and differs from `rowsSeen / totalRows = 1`). -/
theorem progress_fraction_counterexample :
    load_excel_data
      { headers := ["Item ID", "Variation ID", "Quantity"],
        rows := [[Cell.num 1, Cell.na, Cell.num 1], [Cell.na, Cell.na, Cell.na],
                 [Cell.num 2, Cell.na, Cell.num 1]] }
      = Except.ok
          [{ idx := 0, itemId := Cell.num 1, variationId := Cell.na,
             quantity := Cell.num 1, displayName := "ID: 1" },
           { idx := 2, itemId := Cell.num 2, variationId := Cell.na,
             quantity := Cell.num 1, displayName := "ID: 2" }] ∧
    progressValues
        [{ idx := 0, itemId := Cell.num 1, variationId := Cell.na,
           quantity := Cell.num 1, displayName := "ID: 1" },
         { idx := 2, itemId := Cell.num 2, variationId := Cell.na,
           quantity := Cell.num 1, displayName := "ID: 2" }]
      = [1/2, 3/2] ∧
    ¬ ((3 : ℚ)/2 ≤ 1) := by
  refine ⟨by decide, by norm_num [progressValues], by norm_num⟩

/-- C9 (amended): the reported progress for each row is
`(idx + 1) / totalRows` where `idx` is the row's original sheet position
and `totalRows` the number of retained rows.  It is monotonically
increasing over the run; when no row was dropped (the positions are
exactly `0, …, totalRows - 1`) it equals `rowsSeen / totalRows`, stays
within `[0, 1]` and reaches `1` at the last row — but when rows were
dropped it can exceed `1`. -/
theorem progress_semantics (s : Sheet) (rows : List LineItem)
    (h : load_excel_data s = Except.ok rows) :
    List.Pairwise (· < ·) (progressValues rows) ∧
    (rows.map (fun r => r.idx) = List.range rows.length →
      progressValues rows
        = (List.range rows.length).map (fun (k : ℕ) => ((k : ℚ) + 1) / (rows.length : ℚ)) ∧
      (∀ v ∈ progressValues rows, 0 < v ∧ v ≤ 1) ∧
      (rows ≠ [] → (progressValues rows).getLast? = some 1)) := by
  have hidxpw : List.Pairwise (· < ·) (rows.map (fun r => r.idx)) := by
    rw [load_idx_eq s rows h]
    exact pairwise_lt_retained_idx s
  have hmapform : progressValues rows
      = (rows.map (fun r => r.idx)).map (fun (k : ℕ) => ((k : ℚ) + 1) / (rows.length : ℚ)) := by
    rw [List.map_map]
    rfl
  constructor
  · by_cases he : rows = []
    · simp [he, progressValues]
    · have hn : (0 : ℚ) < (rows.length : ℚ) := by
        exact_mod_cast List.length_pos.mpr he
      rw [List.pairwise_map] at hidxpw
      rw [progressValues, List.pairwise_map]
      refine hidxpw.imp ?_
      intro a b hab
      have h1 : ((a.idx : ℚ)) < (b.idx : ℚ) := by exact_mod_cast hab
      exact (div_lt_div_iff_of_pos_right hn).mpr (by linarith)
  · intro hidx
    have ha : progressValues rows
        = (List.range rows.length).map (fun (k : ℕ) => ((k : ℚ) + 1) / (rows.length : ℚ)) := by
      rw [hmapform, hidx]
    refine ⟨ha, ?_, ?_⟩
    · intro v hv
      rw [ha] at hv
      rcases List.mem_map.mp hv with ⟨k, hk, hkv⟩
      have hkn : k < rows.length := List.mem_range.mp hk
      have hn : (0 : ℚ) < (rows.length : ℚ) := by
        exact_mod_cast Nat.lt_of_le_of_lt (Nat.zero_le k) hkn
      subst hkv
      constructor
      · exact div_pos (by positivity) hn
      · refine (div_le_one hn).mpr ?_
        exact_mod_cast Nat.succ_le_of_lt hkn
    · intro hne
      rcases Nat.exists_eq_succ_of_ne_zero
        (fun h0 => hne (List.eq_nil_of_length_eq_zero h0)) with ⟨m, hm⟩
      rw [ha, hm, List.range_succ]
      simp only [List.map_append, List.map_cons, List.map_nil, List.getLast?_concat]
      have h2 : (((m + 1 : ℕ)) : ℚ) = (m : ℚ) + 1 := by push_cast; ring
      rw [h2, div_self (by positivity : (0:ℚ) < (m : ℚ) + 1).ne']

theorem progress_semantics_witness :
    List.Pairwise (· < ·) (progressValues
      [{ idx := 0, itemId := Cell.num 1, variationId := Cell.na,
         quantity := Cell.num 1, displayName := "ID: 1" },
       { idx := 1, itemId := Cell.num 2, variationId := Cell.na,
         quantity := Cell.num 1, displayName := "ID: 2" }]) ∧
    (progressValues
      [{ idx := 0, itemId := Cell.num 1, variationId := Cell.na,
         quantity := Cell.num 1, displayName := "ID: 1" },
       { idx := 1, itemId := Cell.num 2, variationId := Cell.na,
         quantity := Cell.num 1, displayName := "ID: 2" }]).getLast? = some 1 := by
  have h := progress_semantics
    { headers := ["Item ID", "Variation ID", "Quantity"],
      rows := [[Cell.num 1, Cell.na, Cell.num 1], [Cell.num 2, Cell.na, Cell.num 1]] }
    [{ idx := 0, itemId := Cell.num 1, variationId := Cell.na,
       quantity := Cell.num 1, displayName := "ID: 1" },
     { idx := 1, itemId := Cell.num 2, variationId := Cell.na,
       quantity := Cell.num 1, displayName := "ID: 2" }] (by decide)
  exact ⟨h.1, (h.2 (by decide)).2.2 (by decide)⟩

/-! ## Claim C10: load failure on a missing identifier cell -/

/-- C10: when the sheet has no item-name column, the display-name
derivation applies `int()` to the effective identifier cell without
guarding against a missing value, so a retained row whose item identifier
is missing and whose variation identifier is missing or zero makes the
whole load fail (no rows are produced), instead of being retained and
reported as a per-row error downstream. -/
theorem missing_identifier_cell_load_failure (s : Sheet) (p : Nat × List Cell)
    (hname : itemNameKey? s.headers = none)
    (hmem : p ∈ retainedRows s)
    (hitem : getCell s.headers p.2 (itemColOf s.headers) = Cell.na)
    (hvar : getCell s.headers p.2 (varColOf s.headers) = Cell.na ∨
            getCell s.headers p.2 (varColOf s.headers) = Cell.num 0) :
    ∃ e, load_excel_data s = Except.error e := by
  by_cases hm : missingColumns s.headers = []
  · have hdn : displayNameOf s p.2 = Except.error nanIntError := by
      unfold displayNameOf
      rw [hname, hitem]
      rcases hvar with hv | hv <;> rw [hv] <;>
        simp [noNameDisplay, Cell.notna, Cell.isna, pyNeZero, pyInt]
    have hrow : loadRow s p = Except.error nanIntError := by
      unfold loadRow
      rw [hdn]
    rcases mapExcept_error_of_mem hmem hrow with ⟨e, he⟩
    refine ⟨e, ?_⟩
    unfold load_excel_data
    rw [if_pos hm]
    exact he
  · refine ⟨missingMsg (missingColumns s.headers), ?_⟩
    unfold load_excel_data
    rw [if_neg hm]

theorem missing_identifier_cell_load_failure_witness :
    ∃ e, load_excel_data
      { headers := ["Item ID", "Variation ID", "Quantity"],
        rows := [[Cell.na, Cell.na, Cell.num 5]] } = Except.error e := by
  exact missing_identifier_cell_load_failure
    { headers := ["Item ID", "Variation ID", "Quantity"],
      rows := [[Cell.na, Cell.na, Cell.num 5]] }
    (0, [Cell.na, Cell.na, Cell.num 5])
    (by decide) (by decide) (by decide) (Or.inl (by decide))

end MRPLabel
